import Mathlib

/-!
Verification of `predict_image` (src/predict.py).

The function loads a serialized model from the fixed relative path
`model.h5`, loads and resizes an image to 64×64, converts it to a
channel-last array, adds a leading batch dimension, runs inference and
decodes `result[0][0] == 1` into the label `"Normal"`, anything else
into `"Covid"`.

The embedding makes the external world explicit: the file system is a
function from paths to optional file contents; a stored model artifact
carries its (deterministic) inference function and expected per-sample
input shape; numeric array values are rationals, so `==` is exact
numeric equality as in the source. Errors raised by the library calls
are values of `Err`, propagated with `Except` exactly as Python
exceptions propagate out of the straight-line function body.
-/

/-- Errors the underlying library calls can raise. -/
inductive Err where
  /-- The file at the given path does not exist (`FileNotFoundError` / `IOError`). -/
  | fileNotFound : String → Err
  /-- The file exists but cannot be deserialized / decoded as requested. -/
  | decodeError : String → Err
  /-- The tensor handed to `model.predict` does not match the model's input shape. -/
  | shapeMismatch : Err
  /-- An index into the output array is out of range (`IndexError`). -/
  | indexError : Err
deriving DecidableEq, Repr

/-- A decoded raster image: dimensions plus a pixel function
(row, column, channel) → value. -/
structure RawImage where
  height : Nat
  width : Nat
  pixel : Nat → Nat → Nat → ℚ

/-- A rank-2 numeric array (the model's output), as shape plus contents. -/
structure Arr2 where
  d0 : Nat
  d1 : Nat
  at2 : Nat → Nat → ℚ

/-- A rank-3 numeric array (height × width × channels, channel-last). -/
structure Arr3 where
  d0 : Nat
  d1 : Nat
  d2 : Nat
  at3 : Nat → Nat → Nat → ℚ

/-- A rank-4 numeric array (batch × height × width × channels). -/
structure Arr4 where
  d0 : Nat
  d1 : Nat
  d2 : Nat
  d3 : Nat
  at4 : Nat → Nat → Nat → Nat → ℚ

/-- The shape of a rank-4 array. -/
def arr4Shape (a : Arr4) : List Nat := [a.d0, a.d1, a.d2, a.d3]

/-- A deserialized model artifact: the per-sample input shape it was
trained on, and its inference function (deterministic by construction). -/
structure ModelData where
  inputShape : List Nat
  infer : Arr4 → Arr2

/-- A file stored on disk: either a serialized model artifact, or an
image file (`none` contents meaning the bytes are not decodable as an
image). -/
inductive File where
  | modelFile : ModelData → File
  | imageFile : Option RawImage → File

/-- The file system: what (if anything) is stored at each path. -/
def FileSystem : Type := String → Option File

/-- `keras.models.load_model(path)`: raises if the file is missing or is
not a deserializable model, otherwise yields the model handle. -/
def load_model (fs : FileSystem) (path : String) : Except Err ModelData :=
  match fs path with
  | none => .error (.fileNotFound path)
  | some (.imageFile _) => .error (.decodeError path)
  | some (.modelFile m) => .ok m

/-- Resampling to a `th × tw` grid (the concrete kernel is the image
library's default and is irrelevant to the claims; only the resulting
dimensions matter). -/
def resizeImage (img : RawImage) (th tw : Nat) : RawImage :=
  { height := th
    width := tw
    pixel := fun y x c => img.pixel (y * img.height / th) (x * img.width / tw) c }

/-- `image.load_img(path, target_size=(th, tw))`: raises if the file is
missing or not a decodable image, otherwise decodes and resizes. -/
def load_img (fs : FileSystem) (path : String) (th tw : Nat) : Except Err RawImage :=
  match fs path with
  | none => .error (.fileNotFound path)
  | some (.modelFile _) => .error (.decodeError path)
  | some (.imageFile none) => .error (.decodeError path)
  | some (.imageFile (some raw)) => .ok (resizeImage raw th tw)

/-- `image.img_to_array(img)`: a channel-last height × width × 3 array. -/
def img_to_array (img : RawImage) : Arr3 :=
  { d0 := img.height, d1 := img.width, d2 := 3, at3 := img.pixel }

/-- `np.expand_dims(a, axis=0)`: insert a leading batch dimension of size 1. -/
def expand_dims0 (a : Arr3) : Arr4 :=
  { d0 := 1, d1 := a.d0, d2 := a.d1, d3 := a.d2
    at4 := fun _ y x c => a.at3 y x c }

/-- `model.predict(x)`: raises a shape-mismatch error when the
per-sample shape of `x` differs from the model's input shape, otherwise
runs inference. -/
def modelPredict (m : ModelData) (x : Arr4) : Except Err Arr2 :=
  if [x.d1, x.d2, x.d3] = m.inputShape then .ok (m.infer x) else .error .shapeMismatch

/-- `result[0][0]` on a rank-2 array: raises `IndexError` when either
dimension is empty at index 0. -/
def getItem00 (r : Arr2) : Except Err ℚ :=
  if 0 < r.d0 ∧ 0 < r.d1 then .ok (r.at2 0 0) else .error .indexError

/-- The embedding of `predict_image` (src/predict.py, lines 2–22):
load the model from the fixed path `model.h5`, load and preprocess the
image, run inference, and decode `result[0][0] == 1` to a label. -/
def predict_image (fs : FileSystem) (image_path : String) : Except Err String := do
  let model ← load_model fs "model.h5"
  let img ← load_img fs image_path 64 64
  let imgA := img_to_array img
  let x := expand_dims0 imgA
  let result ← modelPredict model x
  let v ← getItem00 result
  if v = 1 then pure "Normal" else pure "Covid"

/-- `predict_image` instrumented with its file-system accesses: the
second component lists, in order, the paths the call reads. The body is
the same straight-line code as `predict_image`. -/
def predict_imageT (fs : FileSystem) (image_path : String) :
    Except Err String × List String :=
  match load_model fs "model.h5" with
  | .error e => (.error e, ["model.h5"])
  | .ok model =>
    match load_img fs image_path 64 64 with
    | .error e => (.error e, ["model.h5", image_path])
    | .ok img =>
      let x := expand_dims0 (img_to_array img)
      match modelPredict model x with
      | .error e => (.error e, ["model.h5", image_path])
      | .ok result =>
        match getItem00 result with
        | .error e => (.error e, ["model.h5", image_path])
        | .ok v =>
          (if v = 1 then .ok "Normal" else .ok "Covid", ["model.h5", image_path])

/-- A constant-colored test image of the given dimensions. -/
def rawImg (h w : Nat) : RawImage :=
  { height := h, width := w, pixel := fun _ _ _ => 0 }

/-- A model expecting 64×64×3 samples whose output is the 1×1 array
`[[v]]`. -/
def constModel (v : ℚ) : ModelData :=
  { inputShape := [64, 64, 3]
    infer := fun _ => { d0 := 1, d1 := 1, at2 := fun _ _ => v } }

/-- A file system holding the model `m` at `model.h5` and the decodable
image `raw` at `img.png`. -/
def fsOf (m : ModelData) (raw : RawImage) : FileSystem := fun p =>
  if p = "model.h5" then some (.modelFile m)
  else if p = "img.png" then some (.imageFile (some raw)) else none

/-- Equality of library results is decidable, so concrete runs can be
checked by evaluation. -/
instance : DecidableEq (Except Err String) := fun
  | .ok a, .ok b =>
    if h : a = b then .isTrue (by rw [h]) else .isFalse (fun hh => h (Except.ok.inj hh))
  | .error a, .error b =>
    if h : a = b then .isTrue (by rw [h]) else .isFalse (fun hh => h (Except.error.inj hh))
  | .ok _, .error _ => .isFalse Except.noConfusion
  | .error _, .ok _ => .isFalse Except.noConfusion

/-- A well-stocked test file system: a model answering `[[1]]` plus a
128×128 image. -/
def fsGood : FileSystem := fsOf (constModel 1) (rawImg 128 128)

/-- A file system with a model at `model.h5` but no other file. -/
def fsModelOnly : FileSystem := fun p =>
  if p = "model.h5" then some (.modelFile (constModel 1)) else none

/-- An entirely empty file system. -/
def emptyFs : FileSystem := fun _ => none

/-- A model whose output array has shape 1×0, so it has no element at
position [0][0]. -/
def emptyOutModel : ModelData :=
  { inputShape := [64, 64, 3]
    infer := fun _ => { d0 := 1, d1 := 0, at2 := fun _ _ => 0 } }

/-- A model whose output is the 1×2 array `[[1, 5]]`. -/
def twoColModel : ModelData :=
  { inputShape := [64, 64, 3]
    infer := fun _ => { d0 := 1, d1 := 2, at2 := fun _ j => if j = 0 then 1 else 5 } }

/-- Once the three fallible stages before the decode step have
succeeded, `predict_image` is the decoding of the output array `r`. -/
theorem predict_image_eq (fs : FileSystem) (p : String) (m : ModelData)
    (img : RawImage) (r : Arr2)
    (hm : load_model fs "model.h5" = .ok m)
    (hi : load_img fs p 64 64 = .ok img)
    (hp : modelPredict m (expand_dims0 (img_to_array img)) = .ok r) :
    predict_image fs p =
      (getItem00 r).bind (fun v => if v = 1 then .ok "Normal" else .ok "Covid") := by
  simp only [predict_image, bind, Except.bind, pure, Except.pure, hm, hi, hp]

/-- C1: the label decoding is exact equality with the literal 1: once
the pipeline reaches the value `v` at output position [0][0], the
result is `"Normal"` exactly when `v = 1` and `"Covid"` exactly when
`v ≠ 1` — no threshold and no rounding. -/
theorem C1_exact_equality (fs : FileSystem) (p : String) (m : ModelData)
    (img : RawImage) (r : Arr2) (v : ℚ)
    (hm : load_model fs "model.h5" = .ok m)
    (hi : load_img fs p 64 64 = .ok img)
    (hp : modelPredict m (expand_dims0 (img_to_array img)) = .ok r)
    (hv : getItem00 r = .ok v) :
    (predict_image fs p = .ok "Normal" ↔ v = 1) ∧
      (predict_image fs p = .ok "Covid" ↔ v ≠ 1) := by
  rw [predict_image_eq fs p m img r hm hi hp, hv]
  by_cases h1 : v = 1 <;> simp [Except.bind, h1]

/-- C1 witness: with a model answering `[[999999/1000000]]` — a value
arbitrarily close to but not equal to 1 — the result is `"Covid"`. -/
theorem C1_exact_equality_witness :
    predict_image (fsOf (constModel (mkRat 999999 1000000)) (rawImg 30 30)) "img.png" =
      .ok "Covid" :=
  (C1_exact_equality (fsOf (constModel (mkRat 999999 1000000)) (rawImg 30 30)) "img.png"
    _ _ _ _ rfl rfl rfl rfl).2.mpr (by decide)

/-- C2: whenever `predict_image` returns (does not raise), the returned
string is `"Normal"` or `"Covid"` — never any other string. -/
theorem C2_label_range (fs : FileSystem) (p : String) (s : String)
    (h : predict_image fs p = .ok s) : s = "Normal" ∨ s = "Covid" := by
  unfold predict_image at h
  cases hM : load_model fs "model.h5" <;> rw [hM] at h <;>
    simp only [bind, Except.bind] at h
  case error => exact absurd h (by simp)
  case ok m =>
    cases hI : load_img fs p 64 64 <;> rw [hI] at h <;>
      simp only [bind, Except.bind] at h
    case error => exact absurd h (by simp)
    case ok img =>
      cases hP : modelPredict m (expand_dims0 (img_to_array img)) <;> rw [hP] at h <;>
        simp only [bind, Except.bind] at h
      case error => exact absurd h (by simp)
      case ok r =>
        cases hV : getItem00 r <;> rw [hV] at h <;>
          simp only [bind, Except.bind] at h
        case error => exact absurd h (by simp)
        case ok v =>
          simp only [pure, Except.pure] at h
          by_cases h1 : v = 1
          · rw [if_pos h1] at h
            exact Or.inl (Except.ok.inj h).symm
          · rw [if_neg h1] at h
            exact Or.inr (Except.ok.inj h).symm

/-- C2 witness: a concrete successful run whose label is `"Normal"`. -/
theorem C2_label_range_witness :
    predict_image fsGood "img.png" = .ok "Normal" ∧
      ("Normal" = "Normal" ∨ "Normal" = "Covid") :=
  ⟨by decide, C2_label_range fsGood "img.png" "Normal" (by decide)⟩

/-- C3: for a decodable image of any original dimensions, loading never
fails because of those dimensions, the image is resampled to 64×64 with
channel-last ordering, and adding the leading batch dimension yields a
tensor of shape [1, 64, 64, 3]. -/
theorem C3_preprocess_shape (fs : FileSystem) (p : String) (raw : RawImage)
    (h : fs p = some (.imageFile (some raw))) :
    load_img fs p 64 64 = .ok (resizeImage raw 64 64) ∧
      arr4Shape (expand_dims0 (img_to_array (resizeImage raw 64 64))) = [1, 64, 64, 3] := by
  refine ⟨?_, rfl⟩
  simp [load_img, h]

/-- C3 witness: a 128×128 image loads without error and preprocesses to
shape [1, 64, 64, 3]. -/
theorem C3_preprocess_shape_witness :
    fsGood "img.png" = some (.imageFile (some (rawImg 128 128))) ∧
      (load_img fsGood "img.png" 64 64 = .ok (resizeImage (rawImg 128 128) 64 64) ∧
        arr4Shape (expand_dims0 (img_to_array (resizeImage (rawImg 128 128) 64 64))) =
          [1, 64, 64, 3]) :=
  ⟨rfl, C3_preprocess_shape fsGood "img.png" (rawImg 128 128) rfl⟩

/-- C4: when the model artifact is in place and `image_path` names no
existing file, `predict_image` raises a file-not-found error carrying
that path, unmodified, and returns no label. -/
theorem C4_missing_image (fs : FileSystem) (p : String) (m : ModelData)
    (hm : fs "model.h5" = some (.modelFile m)) (hp : fs p = none) :
    predict_image fs p = .error (.fileNotFound p) ∧
      ∀ s, predict_image fs p ≠ .ok s := by
  have h : predict_image fs p = .error (.fileNotFound p) := by
    simp [predict_image, load_model, hm, load_img, hp, bind, Except.bind]
  exact ⟨h, fun s hs => by rw [h] at hs; exact Except.noConfusion hs⟩

/-- C4 witness: on a file system holding only the model, classifying a
missing `img.png` fails with `fileNotFound "img.png"`. -/
theorem C4_missing_image_witness :
    fsModelOnly "model.h5" = some (.modelFile (constModel 1)) ∧
      fsModelOnly "img.png" = none ∧
      predict_image fsModelOnly "img.png" = .error (.fileNotFound "img.png") :=
  ⟨rfl, rfl, (C4_missing_image fsModelOnly "img.png" (constModel 1) rfl rfl).1⟩

/-- C5 counterexample: a model whose output array has shape 1×0 — so no
element exists at position [0][0] — makes `predict_image` raise an
`IndexError` rather than take the else branch and return `"Covid"`,
refuting the claim that every non-`[[1]]` output shape yields
`"Covid"`. -/
theorem C5_counterexample :
    predict_image (fsOf emptyOutModel (rawImg 64 64)) "img.png" = .error .indexError ∧
      predict_image (fsOf emptyOutModel (rawImg 64 64)) "img.png" ≠ .ok "Covid" := by
  refine ⟨by decide, ?_⟩
  intro h
  exact absurd (by decide : predict_image (fsOf emptyOutModel (rawImg 64 64)) "img.png" =
    .error .indexError) (by rw [h]; exact fun hh => Except.noConfusion hh)

/-- C5 (amended): whenever the output array does have an element at
position [0][0] (both leading extents positive) and that value is not
1, `predict_image` takes the else branch and returns `"Covid"`;
outputs lacking that position instead raise an index error. -/
theorem C5_else_branch (fs : FileSystem) (p : String) (m : ModelData)
    (img : RawImage) (r : Arr2)
    (hm : load_model fs "model.h5" = .ok m)
    (hi : load_img fs p 64 64 = .ok img)
    (hp : modelPredict m (expand_dims0 (img_to_array img)) = .ok r)
    (hd0 : 0 < r.d0) (hd1 : 0 < r.d1) (hv : r.at2 0 0 ≠ 1) :
    predict_image fs p = .ok "Covid" := by
  rw [predict_image_eq fs p m img r hm hi hp]
  simp [getItem00, hd0, hd1, Except.bind, hv]

/-- C5 witness: a model answering `[[0]]` yields `"Covid"`. -/
theorem C5_else_branch_witness :
    predict_image (fsOf (constModel 0) (rawImg 64 64)) "img.png" = .ok "Covid" :=
  C5_else_branch (fsOf (constModel 0) (rawImg 64 64)) "img.png" _ _ _
    rfl rfl rfl (by decide) (by decide) (by decide)

/-- C6: every invocation's first file-system access is the fixed,
hardcoded path `model.h5` — independent of the caller's `image_path` —
and the instrumented run computes exactly `predict_image`, so the model
artifact is re-read on each call with no caching. -/
theorem C6_fixed_model_path (fs : FileSystem) (p : String) :
    (predict_imageT fs p).2.head? = some "model.h5" ∧
      (predict_imageT fs p).1 = predict_image fs p := by
  cases hM : load_model fs "model.h5" with
  | error e => simp [predict_imageT, predict_image, bind, Except.bind, hM]
  | ok m =>
    cases hI : load_img fs p 64 64 with
    | error e => simp [predict_imageT, predict_image, bind, Except.bind, hM, hI]
    | ok img =>
      cases hP : modelPredict m (expand_dims0 (img_to_array img)) with
      | error e => simp [predict_imageT, predict_image, bind, Except.bind, hM, hI, hP]
      | ok r =>
        cases hV : getItem00 r with
        | error e => simp [predict_imageT, predict_image, bind, Except.bind, hM, hI, hP, hV]
        | ok v =>
          simp only [predict_imageT, predict_image, bind, Except.bind, hM, hI, hP, hV,
            pure, Except.pure]
          constructor <;> trivial

/-- C7 counterexample: with no model artifact on disk, the invocation
touches only the single path `model.h5` before raising, so it does not
read exactly two files. -/
theorem C7_counterexample :
    (predict_imageT emptyFs "img.png").2 = ["model.h5"] ∧
      (predict_imageT emptyFs "img.png").2.length ≠ 2 := by
  exact ⟨rfl, by decide⟩

/-- C7 (amended): an invocation accesses at most the two paths
`model.h5` and `image_path`, in that order, and an invocation that
returns a label accesses exactly those two; the embedding records no
write, network, or global-state effect. -/
theorem C7_reads (fs : FileSystem) (p : String) :
    ((predict_imageT fs p).2 = ["model.h5"] ∨ (predict_imageT fs p).2 = ["model.h5", p]) ∧
      (∀ s, (predict_imageT fs p).1 = .ok s → (predict_imageT fs p).2 = ["model.h5", p]) := by
  cases hM : load_model fs "model.h5" with
  | error e =>
    refine ⟨Or.inl (by simp [predict_imageT, hM]), fun s hs => ?_⟩
    simp [predict_imageT, hM] at hs
  | ok m =>
    cases hI : load_img fs p 64 64 with
    | error e => exact ⟨Or.inr (by simp [predict_imageT, hM, hI]),
        fun s hs => by simp [predict_imageT, hM, hI]⟩
    | ok img =>
      cases hP : modelPredict m (expand_dims0 (img_to_array img)) with
      | error e => exact ⟨Or.inr (by simp [predict_imageT, hM, hI, hP]),
          fun s hs => by simp [predict_imageT, hM, hI, hP]⟩
      | ok r =>
        cases hV : getItem00 r with
        | error e => exact ⟨Or.inr (by simp [predict_imageT, hM, hI, hP, hV]),
            fun s hs => by simp [predict_imageT, hM, hI, hP, hV]⟩
        | ok v => exact ⟨Or.inr (by simp [predict_imageT, hM, hI, hP, hV]),
            fun s hs => by simp [predict_imageT, hM, hI, hP, hV]⟩

/-- C7 witness: a successful run reads exactly `model.h5` and then the
image path. -/
theorem C7_reads_witness :
    (predict_imageT fsGood "img.png").2 = ["model.h5", "img.png"] :=
  (C7_reads fsGood "img.png").2 "Normal"
    (by rw [(C6_fixed_model_path fsGood "img.png").2]; decide)

/-- C8: the classification is deterministic in the embedding (the
model's inference is a function): two invocations on the same file
system and image path that return labels return the same label. -/
theorem C8_deterministic (fs : FileSystem) (p : String) (s₁ s₂ : String)
    (h₁ : predict_image fs p = .ok s₁) (h₂ : predict_image fs p = .ok s₂) :
    s₁ = s₂ := by
  rw [h₁] at h₂
  exact Except.ok.inj h₂

/-- C8 witness: two runs on the fixed good file system agree. -/
theorem C8_deterministic_witness : "Normal" = "Normal" :=
  C8_deterministic fsGood "img.png" "Normal" "Normal" (by decide) (by decide)

/-- C9: the label depends only on the value at output position [0][0]:
two runs — possibly with different file systems, images and models —
whose output arrays both have an element at [0][0] and agree there
produce the same result, whatever the other output elements are. -/
theorem C9_depends_only_on_00 (fs₁ fs₂ : FileSystem) (p₁ p₂ : String)
    (m₁ m₂ : ModelData) (img₁ img₂ : RawImage) (r₁ r₂ : Arr2)
    (hm₁ : load_model fs₁ "model.h5" = .ok m₁)
    (hi₁ : load_img fs₁ p₁ 64 64 = .ok img₁)
    (hp₁ : modelPredict m₁ (expand_dims0 (img_to_array img₁)) = .ok r₁)
    (hm₂ : load_model fs₂ "model.h5" = .ok m₂)
    (hi₂ : load_img fs₂ p₂ 64 64 = .ok img₂)
    (hp₂ : modelPredict m₂ (expand_dims0 (img_to_array img₂)) = .ok r₂)
    (hd₁ : 0 < r₁.d0) (he₁ : 0 < r₁.d1) (hd₂ : 0 < r₂.d0) (he₂ : 0 < r₂.d1)
    (hagree : r₁.at2 0 0 = r₂.at2 0 0) :
    predict_image fs₁ p₁ = predict_image fs₂ p₂ := by
  rw [predict_image_eq fs₁ p₁ m₁ img₁ r₁ hm₁ hi₁ hp₁,
    predict_image_eq fs₂ p₂ m₂ img₂ r₂ hm₂ hi₂ hp₂]
  simp [getItem00, hd₁, he₁, hd₂, he₂, hagree]

/-- C9 witness: a model answering `[[1, 5]]` and a model answering
`[[1]]` agree at [0][0] and classify identically. -/
theorem C9_depends_only_on_00_witness :
    predict_image (fsOf twoColModel (rawImg 32 48)) "img.png" =
      predict_image fsGood "img.png" :=
  C9_depends_only_on_00 (fsOf twoColModel (rawImg 32 48)) fsGood "img.png" "img.png"
    _ _ _ _ _ _ rfl rfl rfl rfl rfl rfl
    (by decide) (by decide) (by decide) (by decide) (by decide)

/-- C10: the decoding comparison is plain numeric equality on the
output value: any value numerically equal to 1 — however it was
written — maps to `"Normal"`. -/
theorem C10_numeric_equality (fs : FileSystem) (p : String) (m : ModelData)
    (img : RawImage) (r : Arr2)
    (hm : load_model fs "model.h5" = .ok m)
    (hi : load_img fs p 64 64 = .ok img)
    (hp : modelPredict m (expand_dims0 (img_to_array img)) = .ok r)
    (hd0 : 0 < r.d0) (hd1 : 0 < r.d1) (hv : r.at2 0 0 = 1) :
    predict_image fs p = .ok "Normal" := by
  rw [predict_image_eq fs p m img r hm hi hp]
  simp [getItem00, hd0, hd1, Except.bind, hv]

/-- C10 witness: a model whose output value is written as the decimal
`1.0` (not the integer literal `1`) still yields `"Normal"`. -/
theorem C10_numeric_equality_witness :
    predict_image (fsOf (constModel (1.0 : ℚ)) (rawImg 64 64)) "img.png" = .ok "Normal" :=
  C10_numeric_equality (fsOf (constModel (1.0 : ℚ)) (rawImg 64 64)) "img.png" _ _ _
    rfl rfl rfl (by decide) (by decide) (by show (1.0 : ℚ) = 1; norm_num)
